import Mathlib

/-!
Verification of `northd/en-global-config.c`: the incremental reconciliation
node that keeps OVN's global configuration consistent between the NB (intent)
and SB (state) databases and aggregates chassis capability advertisements.

The C code is shallowly embedded: `struct smap` option bags become association
lists with first-match lookup, database rows become structures, the engine
handlers become pure functions from inputs and cached state to a result record
that also reports which database writes occurred.
-/

/-- A string-keyed, string-valued option bag (`struct smap`), modelled as an
association list; lookups return the first binding for a key and equality is
map equality (key set plus values), mirroring `smap_equal`. -/
abbrev Smap := List (String × String)

/-- `smap_get`: look a key up, `none` when absent. -/
def smap_get (m : Smap) (k : String) : Option String :=
  match m with
  | [] => none
  | (k', v) :: rest => if k' = k then some v else smap_get rest k

/-- `smap_get_def`: lookup with a default for absent keys. -/
def smap_get_def (m : Smap) (k d : String) : String :=
  (smap_get m k).getD d

/-- Modelled from the spec: boolean lookup with a default (`smap_get_bool` of
the OVS smap library, which is not under src/); a missing key yields the
default, and with default `false` only the value `"true"` reads as true (the
library's case-insensitive comparison is simplified to a case-sensitive one,
which no claim depends on). -/
def smap_get_bool (m : Smap) (k : String) (dflt : Bool) : Bool :=
  match smap_get m k with
  | none => dflt
  | some v => if dflt then v != "false" else v == "true"

/-- `smap_replace`: bind a key to a value, dropping any previous binding. -/
def smap_replace (m : Smap) (k v : String) : Smap :=
  (k, v) :: m.filter (fun p => p.1 != k)

/-- `smap_remove`: drop a key's binding. -/
def smap_remove (m : Smap) (k : String) : Smap :=
  m.filter (fun p => p.1 != k)

/-- `smap_add`: append a binding; an existing binding for the key keeps
priority under first-match lookup. -/
def smap_add (m : Smap) (k v : String) : Smap :=
  m ++ [(k, v)]

/-- The keys bound in a bag. -/
def smap_keys (m : Smap) : List String :=
  m.map (fun p => p.1)

/-- `smap_equal`: map equality, decided by comparing lookups over every key
bound on either side. -/
def smap_equal (a b : Smap) : Bool :=
  (smap_keys a ++ smap_keys b).all (fun k => smap_get a k == smap_get b k)

/-- `struct chassis_features`: the seven converged capability flags. -/
structure ChassisFeatures where
  ct_no_masked_label : Bool
  mac_binding_timestamp : Bool
  ct_lb_related : Bool
  fdb_timestamp : Bool
  ls_dpg_column : Bool
  ct_commit_nat_v2 : Bool
  ct_commit_to_zone : Bool
  deriving Repr, DecidableEq

/-- `northd_enable_all_features`: the all-enabled feature set the function
stores into the node data. -/
def northd_enable_all_features : ChassisFeatures :=
  { ct_no_masked_label := true
    mac_binding_timestamp := true
    ct_lb_related := true
    fdb_timestamp := true
    ls_dpg_column := true
    ct_commit_nat_v2 := true
    ct_commit_to_zone := true }

/-- Modelled from the spec: capability key strings defined in
`include/ovn/features.h` (not under src/); their exact spellings do not affect
any claim. -/
def OVN_FEATURE_CT_NO_MASKED_LABEL : String := "ct-no-masked-label"

/-- Modelled from the spec: capability key (see `OVN_FEATURE_CT_NO_MASKED_LABEL`). -/
def OVN_FEATURE_MAC_BINDING_TIMESTAMP : String := "mac-binding-timestamp"

/-- Modelled from the spec: capability key (see `OVN_FEATURE_CT_NO_MASKED_LABEL`). -/
def OVN_FEATURE_CT_LB_RELATED : String := "ct-lb-related"

/-- Modelled from the spec: capability key (see `OVN_FEATURE_CT_NO_MASKED_LABEL`). -/
def OVN_FEATURE_FDB_TIMESTAMP : String := "fdb-timestamp"

/-- Modelled from the spec: capability key (see `OVN_FEATURE_CT_NO_MASKED_LABEL`). -/
def OVN_FEATURE_LS_DPG_COLUMN : String := "ls-dpg-column"

/-- Modelled from the spec: capability key (see `OVN_FEATURE_CT_NO_MASKED_LABEL`). -/
def OVN_FEATURE_CT_COMMIT_NAT_V2 : String := "ct-commit-nat-v2"

/-- Modelled from the spec: capability key (see `OVN_FEATURE_CT_NO_MASKED_LABEL`). -/
def OVN_FEATURE_CT_COMMIT_TO_ZONE : String := "ct-commit-to-zone"

/-- One `Chassis` row: its `other_config` capability bag plus the IDL
change-tracking tags the incremental handler inspects (`is_tracked` marks rows
visited by the TRACKED iteration; `encap_modified` records a positive modify
seqno on some encap row of the chassis). -/
structure Chassis where
  other_config : Smap
  is_tracked : Bool
  is_new : Bool
  is_deleted : Bool
  encaps_updated : Bool
  encap_modified : Bool
  other_config_updated : Bool
  deriving Repr, DecidableEq

/-- A chassis is remote when it advertises `is-remote` true. -/
def chassis_is_remote (c : Chassis) : Bool :=
  smap_get_bool c.other_config "is-remote" false

/-- The boolean advertisement a chassis makes for a capability key
(default false). -/
def chassis_adv (c : Chassis) (k : String) : Bool :=
  smap_get_bool c.other_config k false

/-- The non-remote chassis of a table, the ones `build_chassis_features`
considers. -/
def local_chassis (t : List Chassis) : List Chassis :=
  t.filter (fun c => !chassis_is_remote c)

/-- The loop body of `build_chassis_features` for one non-remote chassis:
each flag is cleared when the chassis fails to advertise it and the flag is
still set; flags are never raised. -/
def build_chassis_features_step (c : Chassis) (cf : ChassisFeatures) : ChassisFeatures :=
  { ct_no_masked_label :=
      if !(chassis_adv c OVN_FEATURE_CT_NO_MASKED_LABEL) && cf.ct_no_masked_label then
        false
      else cf.ct_no_masked_label
    mac_binding_timestamp :=
      if !(chassis_adv c OVN_FEATURE_MAC_BINDING_TIMESTAMP) && cf.mac_binding_timestamp then
        false
      else cf.mac_binding_timestamp
    ct_lb_related :=
      if !(chassis_adv c OVN_FEATURE_CT_LB_RELATED) && cf.ct_lb_related then
        false
      else cf.ct_lb_related
    fdb_timestamp :=
      if !(chassis_adv c OVN_FEATURE_FDB_TIMESTAMP) && cf.fdb_timestamp then
        false
      else cf.fdb_timestamp
    ls_dpg_column :=
      if !(chassis_adv c OVN_FEATURE_LS_DPG_COLUMN) && cf.ls_dpg_column then
        false
      else cf.ls_dpg_column
    ct_commit_nat_v2 :=
      if !(chassis_adv c OVN_FEATURE_CT_COMMIT_NAT_V2) && cf.ct_commit_nat_v2 then
        false
      else cf.ct_commit_nat_v2
    ct_commit_to_zone :=
      if !(chassis_adv c OVN_FEATURE_CT_COMMIT_TO_ZONE) && cf.ct_commit_to_zone then
        false
      else cf.ct_commit_to_zone }

/-- `build_chassis_features`: scan the chassis table, skipping remote
chassis, clearing every flag some non-remote chassis does not advertise. -/
def build_chassis_features (t : List Chassis) (cf : ChassisFeatures) : ChassisFeatures :=
  match t with
  | [] => cf
  | c :: rest =>
    if chassis_is_remote c then
      build_chassis_features rest cf
    else
      build_chassis_features rest (build_chassis_features_step c cf)

/-- `chassis_features_changed`, exactly as in the source: it compares only
five of the seven fields (`ct_commit_nat_v2` and `ct_commit_to_zone` are not
compared). -/
def chassis_features_changed (present updated : ChassisFeatures) : Bool :=
  if present.ct_no_masked_label != updated.ct_no_masked_label then true
  else if present.mac_binding_timestamp != updated.mac_binding_timestamp then true
  else if present.ct_lb_related != updated.ct_lb_related then true
  else if present.fdb_timestamp != updated.fdb_timestamp then true
  else if present.ls_dpg_column != updated.ls_dpg_column then true
  else false

/-- The anonymous `tracked_data` struct of `ed_type_global_config`. -/
structure GlobalConfigTrackedData where
  nb_options_changed : Bool
  chassis_features_changed : Bool
  deriving Repr, DecidableEq

/-- `struct ed_type_global_config`: the node's cached state (the MAC address
is modelled as a `Nat` plus its formatted string). -/
structure EdTypeGlobalConfig where
  nb_options : Smap
  sb_options : Smap
  features : ChassisFeatures
  svc_monitor_mac : String
  svc_monitor_mac_ea : Nat
  ovn_internal_version_changed : Bool
  tracked : Bool
  tracked_data : GlobalConfigTrackedData
  deriving Repr, DecidableEq

/-- `en_global_config_init`: zero-initialized data with empty bags and all
features enabled. -/
def en_global_config_init : EdTypeGlobalConfig :=
  { nb_options := []
    sb_options := []
    features := northd_enable_all_features
    svc_monitor_mac := ""
    svc_monitor_mac_ea := 0
    ovn_internal_version_changed := false
    tracked := false
    tracked_data := { nb_options_changed := false, chassis_features_changed := false } }

/-- `en_global_config_clear_tracked_data`: reset the tracked-change flags. -/
def en_global_config_clear_tracked_data (cd : EdTypeGlobalConfig) : EdTypeGlobalConfig :=
  { cd with
    tracked := false
    tracked_data := { nb_options_changed := false, chassis_features_changed := false } }

/-- `node_global_config_handler`: the generic gate a downstream node calls;
`true` means the downstream node need not recompute. -/
def node_global_config_handler (gc : EdTypeGlobalConfig) : Bool :=
  if !gc.tracked
     || gc.tracked_data.chassis_features_changed
     || gc.tracked_data.nb_options_changed then
    false
  else
    true

/-- `config_out_of_sync`: compare one key between the new bag and the saved
bag; with `must_be_present` the key counts as out of sync whenever it is
absent from either bag. -/
def config_out_of_sync (config saved_config : Smap) (key : String)
    (must_be_present : Bool) : Bool :=
  let value := smap_get config key
  if value.isNone && must_be_present then
    true
  else
    let saved_value := smap_get saved_config key
    if saved_value.isNone && must_be_present then
      true
    else if value.isNone && saved_value.isNone then
      false
    else if value.isNone || saved_value.isNone then
      true
    else
      value != saved_value

/-- `check_nb_options_out_of_sync`: drift check over the eleven passthrough
keys (the `init_debug_config` side effect on the two debug keys is external
to the stores and is not modelled). -/
def check_nb_options_out_of_sync (nb_options cached : Smap) : Bool :=
  config_out_of_sync nb_options cached "mac_binding_removal_limit" false
  || config_out_of_sync nb_options cached "fdb_removal_limit" false
  || config_out_of_sync nb_options cached "controller_event" false
  || config_out_of_sync nb_options cached "ignore_lsp_down" false
  || config_out_of_sync nb_options cached "use_ct_inv_match" false
  || config_out_of_sync nb_options cached "default_acl_drop" false
  || config_out_of_sync nb_options cached "debug_drop_domain_id" false
  || config_out_of_sync nb_options cached "debug_drop_collector_set" false
  || config_out_of_sync nb_options cached "use_common_zone" false
  || config_out_of_sync nb_options cached "install_ls_lb_from_router" false
  || config_out_of_sync nb_options cached "bcast_arp_req_flood" false

/-- The structural key list of the NB handler: drift here escalates to the
full recompute (the first three are checked with `must_be_present`). -/
def structural_keys : List String :=
  ["svc_monitor_mac", "max_tunid", "mac_prefix",
   "ignore_chassis_features", "northd_internal_version"]

/-- The passthrough key list checked by `check_nb_options_out_of_sync`. -/
def passthrough_keys : List String :=
  ["mac_binding_removal_limit", "fdb_removal_limit", "controller_event",
   "ignore_lsp_down", "use_ct_inv_match", "default_acl_drop",
   "debug_drop_domain_id", "debug_drop_collector_set", "use_common_zone",
   "install_ls_lb_from_router", "bcast_arp_req_flood"]

/-- The NB_Global row: its option bag, ipsec scalar, and the IDL
column-update tags the handler inspects. -/
structure NbGlobal where
  options : Smap
  ipsec : Bool
  updated_ipsec : Bool
  updated_options : Bool
  deriving Repr, DecidableEq

/-- The SB_Global row: option bag and ipsec scalar. -/
structure SbGlobal where
  options : Smap
  ipsec : Bool
  deriving Repr, DecidableEq

/-- The derived SB option bag of `update_sb_config_options_to_sbrec`: clone
the cached NB options, apply the `lb_hairpin_use_ct_mark` rule, preserve the
SB-owned `sbctl_probe_interval`, and add the `arp_ns_explicit_output`
marker. -/
def sb_derived (nbopts : Smap) (feats : ChassisFeatures) (sbopts : Smap) : Smap :=
  let options := nbopts
  let options :=
    if !feats.ct_no_masked_label then
      smap_replace options "lb_hairpin_use_ct_mark" "false"
    else
      smap_remove options "lb_hairpin_use_ct_mark"
  let options :=
    match smap_get sbopts "sbctl_probe_interval" with
    | some sip => smap_replace options "sbctl_probe_interval" sip
    | none => options
  smap_add options "arp_ns_explicit_output" "true"

/-- `update_sb_config_options_to_sbrec`: store the derived bag in the cache
and write it to the SB row only when it differs; the `Bool` reports whether
the write happened. -/
def update_sb_config_options_to_sbrec (cd : EdTypeGlobalConfig) (sb : SbGlobal) :
    EdTypeGlobalConfig × SbGlobal × Bool :=
  let options := sb_derived cd.nb_options cd.features sb.options
  let cd' := { cd with sb_options := options }
  if smap_equal sb.options options then
    (cd', sb, false)
  else
    (cd', { sb with options := options }, true)

/-- Result of `global_config_nb_global_handler`: the handler's return value,
the updated cache, the (possibly written) SB row, and which writes and
engine signals occurred. -/
structure NbHandlerResult where
  handled : Bool
  cd : EdTypeGlobalConfig
  sb : Option SbGlobal
  sb_ipsec_write : Bool
  sb_options_write : Bool
  node_updated : Bool
  deriving Repr, DecidableEq

/-- `global_config_nb_global_handler`: the incremental handler for NB_Global
changes, translated branch by branch from the source. -/
def global_config_nb_global_handler (onb : Option NbGlobal) (osb : Option SbGlobal)
    (cd : EdTypeGlobalConfig) : NbHandlerResult :=
  match onb with
  | none => ⟨false, cd, osb, false, false, false⟩
  | some nb =>
    match osb with
    | none => ⟨false, cd, none, false, false, false⟩
    | some sb =>
      if !nb.updated_ipsec && !nb.updated_options then
        ⟨true, cd, some sb, false, false, false⟩
      else
        let mirror := nb.ipsec != sb.ipsec
        let sb := if mirror then { sb with ipsec := nb.ipsec } else sb
        let cd := { cd with tracked := true }
        if smap_equal nb.options cd.nb_options then
          ⟨true, cd, some sb, mirror, false, false⟩
        else if config_out_of_sync nb.options cd.nb_options "svc_monitor_mac" true then
          ⟨false, cd, some sb, mirror, false, false⟩
        else if config_out_of_sync nb.options cd.nb_options "max_tunid" true then
          ⟨false, cd, some sb, mirror, false, false⟩
        else if config_out_of_sync nb.options cd.nb_options "mac_prefix" true then
          ⟨false, cd, some sb, mirror, false, false⟩
        else if config_out_of_sync nb.options cd.nb_options "ignore_chassis_features" false then
          ⟨false, cd, some sb, mirror, false, false⟩
        else if config_out_of_sync nb.options cd.nb_options "northd_internal_version" false then
          ⟨false, cd, some sb, mirror, false, false⟩
        else
          let cd :=
            if check_nb_options_out_of_sync nb.options cd.nb_options then
              { cd with tracked_data := { cd.tracked_data with nb_options_changed := true } }
            else cd
          let cd := { cd with nb_options := nb.options }
          let r := update_sb_config_options_to_sbrec cd sb
          ⟨true, r.1, some r.2.1, mirror, r.2.2, true⟩

/-- `global_config_sb_global_handler`: absorb only when the SB row exists and
its option bag equals the node's last-written cache. -/
def global_config_sb_global_handler (osb : Option SbGlobal)
    (cd : EdTypeGlobalConfig) : Bool :=
  match osb with
  | none => false
  | some sb =>
    if !(smap_equal sb.options cd.sb_options) then
      false
    else
      true

/-- Result of `global_config_sb_chassis_handler`. -/
structure ChassisHandlerResult where
  handled : Bool
  cd : EdTypeGlobalConfig
  node_updated : Bool
  deriving Repr, DecidableEq

/-- `global_config_sb_chassis_handler`: escalate on topology changes, absorb
otherwise, re-running the feature convergence when some tracked chassis had
its capability bag updated. -/
def global_config_sb_chassis_handler (t : List Chassis)
    (cd : EdTypeGlobalConfig) : ChassisHandlerResult :=
  if t.any (fun c =>
      c.is_tracked && (c.is_new || c.is_deleted || c.encaps_updated || c.encap_modified)) then
    ⟨false, cd, false⟩
  else if smap_get_bool cd.nb_options "ignore_chassis_features" false then
    ⟨true, cd, false⟩
  else if !(t.any (fun c => c.is_tracked && c.other_config_updated)) then
    ⟨true, cd, false⟩
  else
    let present_features := cd.features
    let cd := { cd with features := northd_enable_all_features }
    let cd := { cd with features := build_chassis_features t cd.features }
    if chassis_features_changed present_features cd.features then
      ⟨true,
       { cd with
         tracked := true
         tracked_data := { cd.tracked_data with chassis_features_changed := true } },
       true⟩
    else
      ⟨true, cd, false⟩

/-- Modelled from the spec: the delegated pure helpers `en_global_config_run`
consumes that live outside src/ (`set_mac_prefix` and
`get_ovn_max_dp_key_local` in northd.c, the eth_addr parse/format/random
helpers and `ovn_get_internal_version` in lib/); a MAC address is a `Nat`
and the random generator is the value it would return this pass. -/
structure Externals where
  set_mac_prefix_fn : Option String → String
  eth_addr_from_string : String → Option Nat
  eth_addr_to_string : Nat → String
  eth_addr_random_val : Nat
  get_ovn_max_dp_key_local : List Chassis → Nat
  ovn_get_internal_version : String

/-- The parse of the `svc_monitor_mac` intent option (`none` when the option
is absent or unparsable). -/
def run_monitor_ea (ext : Externals) (nbopts : Smap) : Option Nat :=
  (smap_get nbopts "svc_monitor_mac").bind ext.eth_addr_from_string

/-- Stage 1 of the full run's working bag: overwrite `mac_prefix` with the
derived prefix. -/
def run_options1 (ext : Externals) (nbopts : Smap) : Smap :=
  smap_replace nbopts "mac_prefix" (ext.set_mac_prefix_fn (smap_get nbopts "mac_prefix"))

/-- Stage 2: when the monitor MAC was absent or unparsable, write the freshly
generated one into the working bag. -/
def run_options2 (ext : Externals) (nbopts : Smap) : Smap :=
  match run_monitor_ea ext nbopts with
  | some _ => run_options1 ext nbopts
  | none =>
    smap_replace (run_options1 ext nbopts) "svc_monitor_mac"
      (ext.eth_addr_to_string ext.eth_addr_random_val)

/-- Stage 3: overwrite `max_tunid` with the value derived from the chassis
table. -/
def run_options3 (ext : Externals) (t : List Chassis) (nbopts : Smap) : Smap :=
  smap_replace (run_options2 ext nbopts) "max_tunid"
    (toString (ext.get_ovn_max_dp_key_local t))

/-- Whether the recorded `northd_internal_version` differs from the current
one (compared against the stage-3 working bag, as in the source). -/
def run_ivc (ext : Externals) (t : List Chassis) (nbopts : Smap) : Bool :=
  !(ext.ovn_get_internal_version
    == smap_get_def (run_options3 ext t nbopts) "northd_internal_version" "")

/-- Stage 4, the final working bag: record the current internal version when
it drifted. -/
def run_options (ext : Externals) (t : List Chassis) (nbopts : Smap) : Smap :=
  if run_ivc ext t nbopts then
    smap_replace (run_options3 ext t nbopts) "northd_internal_version"
      ext.ovn_get_internal_version
  else
    run_options3 ext t nbopts

/-- Result of `en_global_config_run`: the cache, the NB and SB rows after the
pass, and which inserts/writes occurred (`random_mac_generated` records that
`eth_addr_random` ran). -/
structure RunResult where
  cd : EdTypeGlobalConfig
  nb : NbGlobal
  sb : SbGlobal
  nb_inserted : Bool
  nb_options_write : Bool
  sb_inserted : Bool
  sb_ipsec_write : Bool
  sb_options_write : Bool
  random_mac_generated : Bool
  deriving Repr

/-- The NB row the run works on: the existing one, or the freshly inserted
empty one (`nbrec_nb_global_insert`). -/
def run_nb0 (onb : Option NbGlobal) : NbGlobal :=
  match onb with
  | some nb => nb
  | none => { options := [], ipsec := false, updated_ipsec := false, updated_options := false }

/-- The SB row the run works on: the existing one, or the freshly inserted
empty one (`sbrec_sb_global_insert`). -/
def run_sb0 (osb : Option SbGlobal) : SbGlobal :=
  match osb with
  | some sb => sb
  | none => { options := [], ipsec := false }

/-- The monitor MAC the run adopts: the parsed option when valid, otherwise
the freshly generated random address. -/
def run_ea (ext : Externals) (o : Smap) : Nat :=
  match run_monitor_ea ext o with
  | some ea => ea
  | none => ext.eth_addr_random_val

/-- Whether the run writes the NB options back (the working bag differs from
the stored one). -/
def run_nb_write (ext : Externals) (t : List Chassis) (nb0 : NbGlobal) : Bool :=
  !(smap_equal nb0.options (run_options ext t nb0.options))

/-- The NB row after the run's conditional options write. -/
def run_nb_out (ext : Externals) (t : List Chassis) (nb0 : NbGlobal) : NbGlobal :=
  if run_nb_write ext t nb0 then { nb0 with options := run_options ext t nb0.options }
  else nb0

/-- The cache after the run's NB phase: working bag, monitor MAC, and the
internal-version-changed flag stored. -/
def run_cd1 (ext : Externals) (t : List Chassis) (nb0 : NbGlobal)
    (cd : EdTypeGlobalConfig) : EdTypeGlobalConfig :=
  { cd with
    nb_options := run_options ext t nb0.options
    svc_monitor_mac := ext.eth_addr_to_string (run_ea ext nb0.options)
    svc_monitor_mac_ea := run_ea ext nb0.options
    ovn_internal_version_changed := run_ivc ext t nb0.options }

/-- The cache after the run's feature phase: all features forced on when
`ignore_chassis_features` is set (read from the NB row after the write, as in
the source), else the convergence scan over the current feature flags. -/
def run_cd2 (_ext : Externals) (t : List Chassis) (nb : NbGlobal)
    (cd1 : EdTypeGlobalConfig) : EdTypeGlobalConfig :=
  if smap_get_bool nb.options "ignore_chassis_features" false then
    { cd1 with features := northd_enable_all_features }
  else
    { cd1 with features := build_chassis_features t cd1.features }

/-- The SB row after the run's conditional ipsec mirror. -/
def run_sb1 (nb : NbGlobal) (sb0 : SbGlobal) : SbGlobal :=
  if nb.ipsec != sb0.ipsec then { sb0 with ipsec := nb.ipsec } else sb0

/-- `en_global_config_run`: the full recomputation, translated statement by
statement (record insertion on absence, monitor-MAC resolution, working-bag
construction, conditional NB write, feature convergence, ipsec mirror, SB
bag derivation), assembled from the named stages above. -/
def en_global_config_run (ext : Externals) (onb : Option NbGlobal)
    (osb : Option SbGlobal) (t : List Chassis) (cd : EdTypeGlobalConfig) : RunResult :=
  let nb0 := run_nb0 onb
  let nb := run_nb_out ext t nb0
  let cd2 := run_cd2 ext t nb (run_cd1 ext t nb0 cd)
  let sb1 := run_sb1 nb (run_sb0 osb)
  let r := update_sb_config_options_to_sbrec cd2 sb1
  ⟨r.1, nb, r.2.1, onb.isNone, run_nb_write ext t nb0, osb.isNone,
   nb.ipsec != (run_sb0 osb).ipsec, r.2.2, (run_monitor_ea ext nb0.options).isNone⟩

/-- Concrete NB row for the C5 counterexample: only the passthrough key
`ignore_lsp_down` drifted; every structural key is absent from both bags. -/
def C5_cx_nb : NbGlobal :=
  { options := [("ignore_lsp_down", "false")]
    ipsec := false
    updated_ipsec := false
    updated_options := true }

/-- Concrete cached state for the C5 counterexample. -/
def C5_cx_cd : EdTypeGlobalConfig :=
  { en_global_config_init with nb_options := [("ignore_lsp_down", "true")] }

/-- Concrete NB row for the C5 witness: structural keys present and
unchanged, `ignore_lsp_down` drifted. -/
def C5_w_nb : NbGlobal :=
  { options := [("svc_monitor_mac", "0a"), ("max_tunid", "1"), ("mac_prefix", "bb"),
                ("ignore_lsp_down", "false")]
    ipsec := false
    updated_ipsec := false
    updated_options := true }

/-- Concrete cached state for the C5 witness. -/
def C5_w_cd : EdTypeGlobalConfig :=
  { en_global_config_init with
    nb_options := [("svc_monitor_mac", "0a"), ("max_tunid", "1"), ("mac_prefix", "bb"),
                   ("ignore_lsp_down", "true")] }

/-- Concrete NB row for the C3 counterexample: the options column is tagged
updated but the bag equals the cached snapshot. -/
def C3_cx_nb : NbGlobal :=
  { options := [("default_acl_drop", "true")]
    ipsec := false
    updated_ipsec := false
    updated_options := true }

/-- Concrete cached state for the C3 counterexample (`tracked` is false and
the cached snapshot equals the NB bag). -/
def C3_cx_cd : EdTypeGlobalConfig :=
  { en_global_config_init with nb_options := [("default_acl_drop", "true")] }

/-- Concrete chassis for the C2 failing input: tracked with an updated
capability bag advertising the five compared features but not
`ct-commit-nat-v2` or `ct-commit-to-zone`. -/
def C2_bug_chassis : Chassis :=
  { other_config := [(OVN_FEATURE_CT_NO_MASKED_LABEL, "true"),
                     (OVN_FEATURE_MAC_BINDING_TIMESTAMP, "true"),
                     (OVN_FEATURE_CT_LB_RELATED, "true"),
                     (OVN_FEATURE_FDB_TIMESTAMP, "true"),
                     (OVN_FEATURE_LS_DPG_COLUMN, "true")]
    is_tracked := true
    is_new := false
    is_deleted := false
    encaps_updated := false
    encap_modified := false
    other_config_updated := true }

/-- Concrete cached state for the C2 failing input: all seven features
currently enabled. -/
def C2_bug_state : EdTypeGlobalConfig := en_global_config_init

/-- Concrete externals used to witness the run theorems: MAC addresses are
formatted in unary so that parsing is the exact inverse of formatting, and
the other helpers are constant. -/
def ext0 : Externals :=
  { set_mac_prefix_fn := fun _ => "0a:00:00"
    eth_addr_from_string := fun s => some s.data.length
    eth_addr_to_string := fun n => String.mk (List.replicate n 'a')
    eth_addr_random_val := 2
    get_ovn_max_dp_key_local := fun _ => 0
    ovn_get_internal_version := "v1" }

/-! ## Basic lemmas about option bags -/

theorem smap_get_filter_ne (m : Smap) (k k' : String) :
    smap_get (m.filter (fun p => p.1 != k)) k' =
      if k' = k then none else smap_get m k' := by
  induction m with
  | nil => simp [smap_get]
  | cons p rest ih =>
    simp only [List.filter_cons]
    by_cases h1 : p.1 = k
    · have hb : (p.1 != k) = false := by simp [h1]
      rw [hb]
      simp only [Bool.false_eq_true, if_false]
      rw [ih]
      by_cases h2 : k' = k
      · simp [h2]
      · simp only [h2, if_false]
        have hne : p.1 ≠ k' := by rw [h1]; exact fun hc => h2 hc.symm
        simp [smap_get, hne]
    · have hb : (p.1 != k) = true := by simp [h1]
      rw [hb]
      simp only [if_true]
      by_cases h2 : p.1 = k'
      · have h3 : ¬k' = k := by rw [← h2]; exact h1
        simp [smap_get, h2, h3]
      · simp [smap_get, h2, ih]

theorem smap_get_remove (m : Smap) (k k' : String) :
    smap_get (smap_remove m k) k' = if k' = k then none else smap_get m k' :=
  smap_get_filter_ne m k k'

theorem smap_get_replace (m : Smap) (k v k' : String) :
    smap_get (smap_replace m k v) k' = if k' = k then some v else smap_get m k' := by
  unfold smap_replace
  by_cases h : k = k'
  · simp [smap_get, h]
  · have h' : k' ≠ k := fun hc => h hc.symm
    simp [smap_get, h, h', smap_get_filter_ne]

theorem smap_get_add (m : Smap) (k v k' : String) :
    smap_get (smap_add m k v) k' =
      match smap_get m k' with
      | some w => some w
      | none => if k' = k then some v else none := by
  induction m with
  | nil =>
    by_cases h : k = k'
    · simp [smap_add, smap_get, h]
    · have h' : ¬k' = k := fun hc => h hc.symm
      simp [smap_add, smap_get, h, h']
  | cons p rest ih =>
    by_cases h : p.1 = k'
    · simp [smap_add, smap_get, h]
    · simp [smap_add, smap_get, h] at ih ⊢
      exact ih

theorem smap_get_none_of_not_mem (m : Smap) (k : String)
    (h : k ∉ smap_keys m) : smap_get m k = none := by
  induction m with
  | nil => rfl
  | cons p rest ih =>
    simp only [smap_keys, List.map_cons, List.mem_cons] at h
    push_neg at h
    have h1 : p.1 ≠ k := fun hc => h.1 hc.symm
    have h2 : k ∉ smap_keys rest := by
      simpa [smap_keys] using h.2
    simp [smap_get, h1, ih h2]

theorem smap_equal_iff (a b : Smap) :
    smap_equal a b = true ↔ ∀ k, smap_get a k = smap_get b k := by
  unfold smap_equal
  rw [List.all_eq_true]
  constructor
  · intro h k
    by_cases hk : k ∈ smap_keys a ++ smap_keys b
    · simpa using h k hk
    · rw [List.mem_append] at hk
      push_neg at hk
      rw [smap_get_none_of_not_mem a k hk.1, smap_get_none_of_not_mem b k hk.2]
  · intro h k _
    simp [h k]

theorem smap_equal_false_of_ne (a b : Smap) (k : String)
    (h : smap_get a k ≠ smap_get b k) : smap_equal a b = false := by
  cases hq : smap_equal a b with
  | false => rfl
  | true => exact absurd ((smap_equal_iff a b).mp hq k) h

/-! ## Feature convergence -/

theorem downgrade_eq (a b : Bool) : (if !a && b then false else b) = (b && a) := by
  cases a <;> cases b <;> rfl

theorem build_chassis_features_step_eq (c : Chassis) (cf : ChassisFeatures) :
    build_chassis_features_step c cf =
      { ct_no_masked_label :=
          cf.ct_no_masked_label && chassis_adv c OVN_FEATURE_CT_NO_MASKED_LABEL
        mac_binding_timestamp :=
          cf.mac_binding_timestamp && chassis_adv c OVN_FEATURE_MAC_BINDING_TIMESTAMP
        ct_lb_related :=
          cf.ct_lb_related && chassis_adv c OVN_FEATURE_CT_LB_RELATED
        fdb_timestamp :=
          cf.fdb_timestamp && chassis_adv c OVN_FEATURE_FDB_TIMESTAMP
        ls_dpg_column :=
          cf.ls_dpg_column && chassis_adv c OVN_FEATURE_LS_DPG_COLUMN
        ct_commit_nat_v2 :=
          cf.ct_commit_nat_v2 && chassis_adv c OVN_FEATURE_CT_COMMIT_NAT_V2
        ct_commit_to_zone :=
          cf.ct_commit_to_zone && chassis_adv c OVN_FEATURE_CT_COMMIT_TO_ZONE } := by
  simp only [build_chassis_features_step, downgrade_eq]

/-- Pointwise characterization of the full scan: each flag of the result is
the seed flag AND-ed with every non-remote chassis's advertisement. -/
theorem build_chassis_features_spec (t : List Chassis) (cf : ChassisFeatures) :
    build_chassis_features t cf =
      { ct_no_masked_label :=
          cf.ct_no_masked_label
            && (local_chassis t).all (fun c => chassis_adv c OVN_FEATURE_CT_NO_MASKED_LABEL)
        mac_binding_timestamp :=
          cf.mac_binding_timestamp
            && (local_chassis t).all (fun c => chassis_adv c OVN_FEATURE_MAC_BINDING_TIMESTAMP)
        ct_lb_related :=
          cf.ct_lb_related
            && (local_chassis t).all (fun c => chassis_adv c OVN_FEATURE_CT_LB_RELATED)
        fdb_timestamp :=
          cf.fdb_timestamp
            && (local_chassis t).all (fun c => chassis_adv c OVN_FEATURE_FDB_TIMESTAMP)
        ls_dpg_column :=
          cf.ls_dpg_column
            && (local_chassis t).all (fun c => chassis_adv c OVN_FEATURE_LS_DPG_COLUMN)
        ct_commit_nat_v2 :=
          cf.ct_commit_nat_v2
            && (local_chassis t).all (fun c => chassis_adv c OVN_FEATURE_CT_COMMIT_NAT_V2)
        ct_commit_to_zone :=
          cf.ct_commit_to_zone
            && (local_chassis t).all (fun c => chassis_adv c OVN_FEATURE_CT_COMMIT_TO_ZONE) } := by
  induction t generalizing cf with
  | nil => cases cf; simp [build_chassis_features, local_chassis]
  | cons c rest ih =>
    by_cases hr : chassis_is_remote c = true
    · simp [build_chassis_features, hr, local_chassis, List.filter_cons, ih]
    · simp only [Bool.not_eq_true] at hr
      simp [build_chassis_features, hr, local_chassis, List.filter_cons, ih,
            build_chassis_features_step_eq, Bool.and_assoc]

/-- C4: run on the all-enabled seed, the full scan yields, for each of the
seven capability keys, the AND over every non-remote chassis of its boolean
advertisement (default false); remote chassis are skipped (they are filtered
out of `local_chassis`), and for an empty table every flag stays true. -/
theorem C4_full_scan_feature_convergence (t : List Chassis) :
    build_chassis_features t northd_enable_all_features =
      { ct_no_masked_label :=
          (local_chassis t).all (fun c => chassis_adv c OVN_FEATURE_CT_NO_MASKED_LABEL)
        mac_binding_timestamp :=
          (local_chassis t).all (fun c => chassis_adv c OVN_FEATURE_MAC_BINDING_TIMESTAMP)
        ct_lb_related :=
          (local_chassis t).all (fun c => chassis_adv c OVN_FEATURE_CT_LB_RELATED)
        fdb_timestamp :=
          (local_chassis t).all (fun c => chassis_adv c OVN_FEATURE_FDB_TIMESTAMP)
        ls_dpg_column :=
          (local_chassis t).all (fun c => chassis_adv c OVN_FEATURE_LS_DPG_COLUMN)
        ct_commit_nat_v2 :=
          (local_chassis t).all (fun c => chassis_adv c OVN_FEATURE_CT_COMMIT_NAT_V2)
        ct_commit_to_zone :=
          (local_chassis t).all (fun c => chassis_adv c OVN_FEATURE_CT_COMMIT_TO_ZONE) }
    ∧ build_chassis_features ([] : List Chassis) northd_enable_all_features
        = northd_enable_all_features := by
  constructor
  · rw [build_chassis_features_spec]
    simp [northd_enable_all_features]
  · rfl

/-- C1 counterexample: on the freshly initialized state (`tracked` false,
both tracked-data flags false) the gate returns `false` (recompute needed),
refuting the claim that it reports "no recompute needed" whenever `tracked`
is false. -/
theorem C1_counterexample :
    ¬ (node_global_config_handler en_global_config_init = true ↔
        (en_global_config_init.tracked = false
         ∨ (en_global_config_init.tracked = true
            ∧ en_global_config_init.tracked_data.nb_options_changed = false
            ∧ en_global_config_init.tracked_data.chassis_features_changed = false))) := by
  decide

/-- C1 (amended): `node_global_config_handler` reports "no recompute needed"
iff `tracked` is true and neither `nb_options_changed` nor
`chassis_features_changed` is set; when `tracked` is false (the change was
not absorbed incrementally) it reports that recomputation is required. -/
theorem C1_amended_gate (gc : EdTypeGlobalConfig) :
    node_global_config_handler gc = true ↔
      (gc.tracked = true
       ∧ gc.tracked_data.nb_options_changed = false
       ∧ gc.tracked_data.chassis_features_changed = false) := by
  cases gc with
  | mk nbo sbo f mac ea ivc tr td =>
    cases td with
    | mk oc fc =>
      cases tr <;> cases oc <;> cases fc <;> simp [node_global_config_handler]

/-- C6: the SB_Global handler absorbs (returns true) iff the SB record exists
and its option bag equals the node's last-written `sb_options` cache; it
escalates both when the record is missing and when the bag drifted. -/
theorem C6_sb_global_handler (osb : Option SbGlobal) (cd : EdTypeGlobalConfig) :
    global_config_sb_global_handler osb cd = true ↔
      ∃ sb, osb = some sb ∧ smap_equal sb.options cd.sb_options = true := by
  cases osb with
  | none => simp [global_config_sb_global_handler]
  | some sb =>
    cases h : smap_equal sb.options cd.sb_options <;>
      simp [global_config_sb_global_handler, h]

/-! ## The NB_Global incremental handler -/

theorem config_out_of_sync_of_ne (a b : Smap) (k : String) (mbp : Bool)
    (h : smap_get a k ≠ smap_get b k) :
    config_out_of_sync a b k mbp = true := by
  unfold config_out_of_sync
  cases hv : smap_get a k <;> cases hs : smap_get b k <;> cases mbp <;>
    simp_all [bne_iff_ne]

theorem config_out_of_sync_eq_false (a b : Smap) (k : String) (mbp : Bool)
    (heq : smap_get a k = smap_get b k)
    (hp : mbp = true → (smap_get a k).isSome = true) :
    config_out_of_sync a b k mbp = false := by
  unfold config_out_of_sync
  cases hv : smap_get a k with
  | none =>
    cases mbp with
    | true => exact absurd (hp rfl) (by simp [hv])
    | false =>
      have hb : smap_get b k = none := by rw [← heq, hv]
      simp [hv, hb]
  | some v =>
    have hb : smap_get b k = some v := by rw [← heq, hv]
    cases mbp <;> simp [hv, hb]

theorem config_out_of_sync_true_of_absent (a b : Smap) (k : String)
    (h : smap_get a k = none ∨ smap_get b k = none) :
    config_out_of_sync a b k true = true := by
  unfold config_out_of_sync
  rcases h with h | h
  · simp [h]
  · cases hv : smap_get a k <;> simp [h, hv]

/-- Any of the five structural checks firing makes the NB handler escalate. -/
theorem nb_handler_escalates (nb : NbGlobal) (sb : SbGlobal) (cd : EdTypeGlobalConfig)
    (hcols : (!nb.updated_ipsec && !nb.updated_options) = false)
    (hneq : smap_equal nb.options cd.nb_options = false)
    (hchk : config_out_of_sync nb.options cd.nb_options "svc_monitor_mac" true = true
          ∨ config_out_of_sync nb.options cd.nb_options "max_tunid" true = true
          ∨ config_out_of_sync nb.options cd.nb_options "mac_prefix" true = true
          ∨ config_out_of_sync nb.options cd.nb_options "ignore_chassis_features" false = true
          ∨ config_out_of_sync nb.options cd.nb_options "northd_internal_version" false = true) :
    (global_config_nb_global_handler (some nb) (some sb) cd).handled = false := by
  unfold global_config_nb_global_handler
  rcases hchk with h | h | h | h | h
  · simp [hcols, hneq, h]
  · by_cases h1 : config_out_of_sync nb.options cd.nb_options "svc_monitor_mac" true = true
    · simp [hcols, hneq, h1]
    · simp [hcols, hneq, h1, h]
  · by_cases h1 : config_out_of_sync nb.options cd.nb_options "svc_monitor_mac" true = true
    · simp [hcols, hneq, h1]
    · by_cases h2 : config_out_of_sync nb.options cd.nb_options "max_tunid" true = true
      · simp [hcols, hneq, h1, h2]
      · simp [hcols, hneq, h1, h2, h]
  · by_cases h1 : config_out_of_sync nb.options cd.nb_options "svc_monitor_mac" true = true
    · simp [hcols, hneq, h1]
    · by_cases h2 : config_out_of_sync nb.options cd.nb_options "max_tunid" true = true
      · simp [hcols, hneq, h1, h2]
      · by_cases h3 : config_out_of_sync nb.options cd.nb_options "mac_prefix" true = true
        · simp [hcols, hneq, h1, h2, h3]
        · simp [hcols, hneq, h1, h2, h3, h]
  · by_cases h1 : config_out_of_sync nb.options cd.nb_options "svc_monitor_mac" true = true
    · simp [hcols, hneq, h1]
    · by_cases h2 : config_out_of_sync nb.options cd.nb_options "max_tunid" true = true
      · simp [hcols, hneq, h1, h2]
      · by_cases h3 : config_out_of_sync nb.options cd.nb_options "mac_prefix" true = true
        · simp [hcols, hneq, h1, h2, h3]
        · by_cases h4 :
            config_out_of_sync nb.options cd.nb_options "ignore_chassis_features" false = true
          · simp [hcols, hneq, h1, h2, h3, h4]
          · simp [hcols, hneq, h1, h2, h3, h4, h]

/-- C10: with the intent record present, bags differing, and the SB record
present, the NB handler escalates whenever one of `svc_monitor_mac`,
`max_tunid`, `mac_prefix` is absent from the new bag or from the cached
snapshot — including when it is absent from both and the bags agree on it. -/
theorem C10_absent_structural_key_escalates (nb : NbGlobal) (sb : SbGlobal)
    (cd : EdTypeGlobalConfig) (k : String)
    (hcols : (nb.updated_ipsec || nb.updated_options) = true)
    (hdiff : smap_equal nb.options cd.nb_options = false)
    (hk : k ∈ (["svc_monitor_mac", "max_tunid", "mac_prefix"] : List String))
    (habs : smap_get nb.options k = none ∨ smap_get cd.nb_options k = none) :
    (global_config_nb_global_handler (some nb) (some sb) cd).handled = false := by
  have hcols' : (!nb.updated_ipsec && !nb.updated_options) = false := by
    cases hu : nb.updated_ipsec <;> cases ho : nb.updated_options <;> simp_all
  apply nb_handler_escalates nb sb cd hcols' hdiff
  simp only [List.mem_cons, List.mem_singleton, List.not_mem_nil, or_false] at hk
  rcases hk with rfl | rfl | rfl
  · exact Or.inl (config_out_of_sync_true_of_absent _ _ _ habs)
  · exact Or.inr (Or.inl (config_out_of_sync_true_of_absent _ _ _ habs))
  · exact Or.inr (Or.inr (Or.inl (config_out_of_sync_true_of_absent _ _ _ habs)))

/-- Witness for C10 at a concrete input: `svc_monitor_mac` absent from both
bags, a passthrough key drifted; the handler escalates. -/
theorem C10_witness :
    (global_config_nb_global_handler
      (some ⟨[("ignore_lsp_down", "false")], false, false, true⟩)
      (some ⟨[], false⟩)
      { en_global_config_init with nb_options := [("ignore_lsp_down", "true")] }).handled
      = false :=
  C10_absent_structural_key_escalates _ _ _ "svc_monitor_mac"
    (by decide) (by decide) (by decide) (Or.inl (by decide))

/-- The first component of `update_sb_config_options_to_sbrec` is the cache
with `sb_options` set to the derived bag, whether or not a write occurs. -/
theorem update_sb_config_options_to_sbrec_fst (cd : EdTypeGlobalConfig) (sb : SbGlobal) :
    (update_sb_config_options_to_sbrec cd sb).1 =
      { cd with sb_options := sb_derived cd.nb_options cd.features sb.options } := by
  simp only [update_sb_config_options_to_sbrec]
  split <;> rfl

/-- The absorb path of the NB handler: no structural check fires and the
passthrough check fires, so the handler returns true with
`nb_options_changed` set. -/
theorem nb_handler_absorb (nb : NbGlobal) (sb : SbGlobal) (cd : EdTypeGlobalConfig)
    (hcols : (!nb.updated_ipsec && !nb.updated_options) = false)
    (hneq : smap_equal nb.options cd.nb_options = false)
    (h1 : config_out_of_sync nb.options cd.nb_options "svc_monitor_mac" true = false)
    (h2 : config_out_of_sync nb.options cd.nb_options "max_tunid" true = false)
    (h3 : config_out_of_sync nb.options cd.nb_options "mac_prefix" true = false)
    (h4 : config_out_of_sync nb.options cd.nb_options "ignore_chassis_features" false = false)
    (h5 : config_out_of_sync nb.options cd.nb_options "northd_internal_version" false = false)
    (h6 : check_nb_options_out_of_sync nb.options cd.nb_options = true) :
    (global_config_nb_global_handler (some nb) (some sb) cd).handled = true
    ∧ (global_config_nb_global_handler
        (some nb) (some sb) cd).cd.tracked_data.nb_options_changed = true := by
  unfold global_config_nb_global_handler
  simp [hcols, hneq, h1, h2, h3, h4, h5, h6, update_sb_config_options_to_sbrec_fst]

/-- C5 counterexample: the NB handler escalates (returns false) even though
no structural key drifted (every structural key is absent from both bags,
so the bags agree on each of them) and only the passthrough key
`ignore_lsp_down` drifted — absence of a must-be-present key forces
escalation, contradicting the claim that this input is absorbed. -/
theorem C5_counterexample :
    (global_config_nb_global_handler (some C5_cx_nb) (some ⟨[], false⟩) C5_cx_cd).handled
      = false
    ∧ smap_equal C5_cx_nb.options C5_cx_cd.nb_options = false
    ∧ (∀ k ∈ structural_keys, smap_get C5_cx_nb.options k = smap_get C5_cx_cd.nb_options k)
    ∧ smap_get C5_cx_nb.options "ignore_lsp_down" ≠ smap_get C5_cx_cd.nb_options "ignore_lsp_down"
    ∧ "ignore_lsp_down" ∈ passthrough_keys := by
  decide

/-- C5 (amended): when the relevant columns are tagged updated, (a) drift on
any structural key makes the handler escalate, and (b) when every structural
key agrees between the two bags AND the three must-be-present keys
(`svc_monitor_mac`, `max_tunid`, `mac_prefix`) are actually present, drift on
a passthrough key makes the handler absorb (true) and set
`trackedData.optionsChanged`. -/
theorem C5_amended_two_tier (nb : NbGlobal) (sb : SbGlobal) (cd : EdTypeGlobalConfig)
    (hcols : (nb.updated_ipsec || nb.updated_options) = true) :
    (∀ k ∈ structural_keys,
        smap_get nb.options k ≠ smap_get cd.nb_options k →
        (global_config_nb_global_handler (some nb) (some sb) cd).handled = false)
    ∧ ((∀ k ∈ structural_keys, smap_get nb.options k = smap_get cd.nb_options k) →
       (smap_get nb.options "svc_monitor_mac").isSome = true →
       (smap_get nb.options "max_tunid").isSome = true →
       (smap_get nb.options "mac_prefix").isSome = true →
       (∃ k ∈ passthrough_keys, smap_get nb.options k ≠ smap_get cd.nb_options k) →
       (global_config_nb_global_handler (some nb) (some sb) cd).handled = true
       ∧ (global_config_nb_global_handler
           (some nb) (some sb) cd).cd.tracked_data.nb_options_changed = true) := by
  have hcols' : (!nb.updated_ipsec && !nb.updated_options) = false := by
    cases hu : nb.updated_ipsec <;> cases ho : nb.updated_options <;> simp_all
  constructor
  · intro k hk hne
    have hdiff := smap_equal_false_of_ne _ _ k hne
    apply nb_handler_escalates nb sb cd hcols' hdiff
    simp only [structural_keys, List.mem_cons, List.not_mem_nil, or_false] at hk
    rcases hk with rfl | rfl | rfl | rfl | rfl
    · exact Or.inl (config_out_of_sync_of_ne _ _ _ true hne)
    · exact Or.inr (Or.inl (config_out_of_sync_of_ne _ _ _ true hne))
    · exact Or.inr (Or.inr (Or.inl (config_out_of_sync_of_ne _ _ _ true hne)))
    · exact Or.inr (Or.inr (Or.inr (Or.inl (config_out_of_sync_of_ne _ _ _ false hne))))
    · exact Or.inr (Or.inr (Or.inr (Or.inr (config_out_of_sync_of_ne _ _ _ false hne))))
  · intro hstruct hp1 hp2 hp3 hdrift
    obtain ⟨k, hkmem, hkne⟩ := hdrift
    have hdiff := smap_equal_false_of_ne _ _ k hkne
    have h1 := config_out_of_sync_eq_false nb.options cd.nb_options "svc_monitor_mac" true
      (hstruct _ (by simp [structural_keys])) (fun _ => hp1)
    have h2 := config_out_of_sync_eq_false nb.options cd.nb_options "max_tunid" true
      (hstruct _ (by simp [structural_keys])) (fun _ => hp2)
    have h3 := config_out_of_sync_eq_false nb.options cd.nb_options "mac_prefix" true
      (hstruct _ (by simp [structural_keys])) (fun _ => hp3)
    have h4 := config_out_of_sync_eq_false nb.options cd.nb_options
      "ignore_chassis_features" false
      (hstruct _ (by simp [structural_keys])) (fun hc => Bool.noConfusion hc)
    have h5 := config_out_of_sync_eq_false nb.options cd.nb_options
      "northd_internal_version" false
      (hstruct _ (by simp [structural_keys])) (fun hc => Bool.noConfusion hc)
    have h6 : check_nb_options_out_of_sync nb.options cd.nb_options = true := by
      have hck := config_out_of_sync_of_ne nb.options cd.nb_options k false hkne
      simp only [passthrough_keys, List.mem_cons, List.not_mem_nil, or_false] at hkmem
      rcases hkmem with rfl | rfl | rfl | rfl | rfl | rfl | rfl | rfl | rfl | rfl | rfl <;>
        simp [check_nb_options_out_of_sync, hck]
    exact nb_handler_absorb nb sb cd hcols' hdiff h1 h2 h3 h4 h5 h6

/-- Witness for C5 (amended), part (b), at a concrete input: structural keys
present and unchanged, `ignore_lsp_down` drifted; the handler absorbs and
sets `nb_options_changed`. -/
theorem C5_witness :
    (global_config_nb_global_handler (some C5_w_nb) (some ⟨[], false⟩) C5_w_cd).handled = true
    ∧ (global_config_nb_global_handler
        (some C5_w_nb) (some ⟨[], false⟩) C5_w_cd).cd.tracked_data.nb_options_changed = true :=
  (C5_amended_two_tier C5_w_nb ⟨[], false⟩ C5_w_cd (by decide)).2
    (by decide) (by decide) (by decide) (by decide)
    ⟨"ignore_lsp_down", by decide, by decide⟩

/-- C3 counterexample: with the options column tagged updated and the NB bag
equal to the cached snapshot, the handler absorbs (returns true) but sets
`tracked` from false to true, refuting "leaving tracked ... unchanged". -/
theorem C3_counterexample :
    (global_config_nb_global_handler (some C3_cx_nb) (some ⟨[], false⟩) C3_cx_cd).handled = true
    ∧ C3_cx_cd.tracked = false
    ∧ (global_config_nb_global_handler (some C3_cx_nb) (some ⟨[], false⟩) C3_cx_cd).cd.tracked
        = true
    ∧ smap_equal C3_cx_nb.options C3_cx_cd.nb_options = true := by
  decide

/-- C3 (amended): when the records exist, a relevant column is tagged
updated, the ipsec scalars already agree, and the NB bag equals the cached
snapshot, the handler absorbs with no store write, no node-updated signal,
and no change to any cached field except `tracked`, which it sets to true. -/
theorem C3_amended_equal_bag_absorb (nb : NbGlobal) (sb : SbGlobal) (cd : EdTypeGlobalConfig)
    (hcols : (nb.updated_ipsec || nb.updated_options) = true)
    (heq : smap_equal nb.options cd.nb_options = true)
    (hip : nb.ipsec = sb.ipsec) :
    global_config_nb_global_handler (some nb) (some sb) cd =
      ⟨true, { cd with tracked := true }, some sb, false, false, false⟩ := by
  have hcols' : (!nb.updated_ipsec && !nb.updated_options) = false := by
    cases hu : nb.updated_ipsec <;> cases ho : nb.updated_options <;> simp_all
  have hm : (nb.ipsec != sb.ipsec) = false := by simp [hip]
  unfold global_config_nb_global_handler
  simp [hcols', heq, hm]

/-- Witness for C3 (amended) at the concrete counterexample input. -/
theorem C3_witness :
    global_config_nb_global_handler (some C3_cx_nb) (some ⟨[], false⟩) C3_cx_cd =
      ⟨true, { C3_cx_cd with tracked := true }, some ⟨[], false⟩, false, false, false⟩ :=
  C3_amended_equal_bag_absorb C3_cx_nb ⟨[], false⟩ C3_cx_cd (by decide) (by decide) rfl

/-- C2 failing input, evaluated: one tracked chassis with an updated
capability bag stops advertising `ct-commit-nat-v2`/`ct-commit-to-zone`
(while advertising the other five); the rebuilt feature set differs from the
cached one in exactly those two flags, yet the handler — whose
`chassis_features_changed` comparator omits them — leaves
`trackedData.featuresChanged` and `tracked` unset and does not mark the node
updated. -/
theorem C2_code_bug_eval :
    (global_config_sb_chassis_handler [C2_bug_chassis] C2_bug_state).handled = true
    ∧ (global_config_sb_chassis_handler
        [C2_bug_chassis] C2_bug_state).cd.features.ct_commit_nat_v2 = false
    ∧ (global_config_sb_chassis_handler
        [C2_bug_chassis] C2_bug_state).cd.features.ct_commit_to_zone = false
    ∧ C2_bug_state.features.ct_commit_nat_v2 = true
    ∧ C2_bug_state.features.ct_commit_to_zone = true
    ∧ (global_config_sb_chassis_handler [C2_bug_chassis] C2_bug_state).cd.tracked = false
    ∧ (global_config_sb_chassis_handler
        [C2_bug_chassis] C2_bug_state).cd.tracked_data.chassis_features_changed = false
    ∧ (global_config_sb_chassis_handler [C2_bug_chassis] C2_bug_state).node_updated = false := by
  decide

/-- C7: in the derived SB option bag, `lb_hairpin_use_ct_mark` is bound to
`"false"` exactly when `features.ct_no_masked_label` is false, and is absent
exactly when that flag is true. -/
theorem C7_lb_hairpin_use_ct_mark (cd : EdTypeGlobalConfig) (sb : SbGlobal) :
    ((smap_get (update_sb_config_options_to_sbrec cd sb).1.sb_options "lb_hairpin_use_ct_mark"
        = some "false") ↔ cd.features.ct_no_masked_label = false)
    ∧ ((smap_get (update_sb_config_options_to_sbrec cd sb).1.sb_options "lb_hairpin_use_ct_mark"
        = none) ↔ cd.features.ct_no_masked_label = true) := by
  rw [update_sb_config_options_to_sbrec_fst]
  unfold sb_derived
  cases hf : cd.features.ct_no_masked_label with
  | false =>
    cases hs : smap_get sb.options "sbctl_probe_interval" with
    | none => simp [hf, hs, smap_get_add, smap_get_replace]
    | some sip => simp [hf, hs, smap_get_add, smap_get_replace]
  | true =>
    cases hs : smap_get sb.options "sbctl_probe_interval" with
    | none => simp [hf, hs, smap_get_add, smap_get_remove]
    | some sip => simp [hf, hs, smap_get_add, smap_get_replace, smap_get_remove]

/-! ## The full recomputation -/

theorem run_options_get_mp (ext : Externals) (t : List Chassis) (o : Smap) :
    smap_get (run_options ext t o) "mac_prefix"
      = some (ext.set_mac_prefix_fn (smap_get o "mac_prefix")) := by
  unfold run_options run_options3 run_options2 run_options1
  cases hm : run_monitor_ea ext o <;> cases hiv : run_ivc ext t o <;>
    simp [hm, hiv, smap_get_replace]

theorem run_options_get_mt (ext : Externals) (t : List Chassis) (o : Smap) :
    smap_get (run_options ext t o) "max_tunid"
      = some (toString (ext.get_ovn_max_dp_key_local t)) := by
  unfold run_options run_options3
  cases hiv : run_ivc ext t o <;> simp [hiv, smap_get_replace]

theorem run_options_get_svc (ext : Externals) (t : List Chassis) (o : Smap) :
    smap_get (run_options ext t o) "svc_monitor_mac"
      = match run_monitor_ea ext o with
        | some _ => smap_get o "svc_monitor_mac"
        | none => some (ext.eth_addr_to_string ext.eth_addr_random_val) := by
  unfold run_options run_options3 run_options2 run_options1
  cases hm : run_monitor_ea ext o <;> cases hiv : run_ivc ext t o <;>
    simp [hm, hiv, smap_get_replace]

theorem run_options3_get_nv (ext : Externals) (t : List Chassis) (o : Smap) :
    smap_get (run_options3 ext t o) "northd_internal_version"
      = smap_get o "northd_internal_version" := by
  unfold run_options3 run_options2 run_options1
  cases hm : run_monitor_ea ext o <;> simp [hm, smap_get_replace]

theorem run_options_get_nv (ext : Externals) (t : List Chassis) (o : Smap) :
    smap_get (run_options ext t o) "northd_internal_version"
      = if run_ivc ext t o then some ext.ovn_get_internal_version
        else smap_get o "northd_internal_version" := by
  unfold run_options
  cases hiv : run_ivc ext t o <;> simp [hiv, smap_get_replace, run_options3_get_nv]

theorem run_options_get_other (ext : Externals) (t : List Chassis) (o : Smap) (k : String)
    (h1 : k ≠ "mac_prefix") (h2 : k ≠ "svc_monitor_mac") (h3 : k ≠ "max_tunid")
    (h4 : k ≠ "northd_internal_version") :
    smap_get (run_options ext t o) k = smap_get o k := by
  unfold run_options run_options3 run_options2 run_options1
  cases hm : run_monitor_ea ext o <;> cases hiv : run_ivc ext t o <;>
    simp [hm, hiv, smap_get_replace, h1, h2, h3, h4]

/-- When a bag map-equals a run's output bag, the monitor-MAC option in it
parses (it is either the untouched valid option or the freshly written
formatted random address). -/
theorem run_monitor_ea_of_out (ext : Externals) (t : List Chassis) (o o2 : Smap)
    (hrt : ∀ m, ext.eth_addr_from_string (ext.eth_addr_to_string m) = some m)
    (ho2 : ∀ k, smap_get o2 k = smap_get (run_options ext t o) k) :
    (run_monitor_ea ext o2).isSome = true := by
  have h := ho2 "svc_monitor_mac"
  rw [run_options_get_svc] at h
  cases hm : run_monitor_ea ext o with
  | some ea =>
    rw [hm] at h
    have : run_monitor_ea ext o2 = run_monitor_ea ext o := by
      unfold run_monitor_ea
      rw [h]
    rw [this, hm]
    rfl
  | none =>
    rw [hm] at h
    unfold run_monitor_ea
    rw [h]
    simp [hrt]

/-- When a bag map-equals a run's output bag (same externals, same table),
the recorded internal version is current, so a rerun sees no version
drift. -/
theorem run_ivc_of_out (ext : Externals) (t : List Chassis) (o o2 : Smap)
    (ho2 : ∀ k, smap_get o2 k = smap_get (run_options ext t o) k) :
    run_ivc ext t o2 = false := by
  have hnv : smap_get o2 "northd_internal_version"
      = smap_get (run_options ext t o) "northd_internal_version" := ho2 _
  rw [run_options_get_nv] at hnv
  unfold run_ivc smap_get_def
  rw [run_options3_get_nv, hnv]
  cases hiv : run_ivc ext t o with
  | true => simp
  | false =>
    unfold run_ivc smap_get_def at hiv
    rw [run_options3_get_nv] at hiv
    simpa using hiv

/-- Re-running the option-bag pipeline on (a bag map-equal to) its own
output changes nothing, given that MAC formatting round-trips through
parsing and the MAC-prefix derivation is idempotent. -/
theorem run_options_stable (ext : Externals) (t : List Chassis) (o o2 : Smap)
    (hrt : ∀ m, ext.eth_addr_from_string (ext.eth_addr_to_string m) = some m)
    (hmp : ∀ h, ext.set_mac_prefix_fn (some (ext.set_mac_prefix_fn h))
                  = ext.set_mac_prefix_fn h)
    (ho2 : ∀ k, smap_get o2 k = smap_get (run_options ext t o) k) :
    ∀ k, smap_get (run_options ext t o2) k = smap_get o2 k := by
  intro k
  by_cases h1 : k = "northd_internal_version"
  · subst h1
    rw [run_options_get_nv, run_ivc_of_out ext t o o2 ho2]
    simp
  · by_cases h2 : k = "max_tunid"
    · subst h2
      rw [run_options_get_mt, ho2 "max_tunid", run_options_get_mt]
    · by_cases h3 : k = "svc_monitor_mac"
      · subst h3
        rw [run_options_get_svc]
        obtain ⟨ea2, hm2⟩ :=
          Option.isSome_iff_exists.mp (run_monitor_ea_of_out ext t o o2 hrt ho2)
        rw [hm2]
      · by_cases h4 : k = "mac_prefix"
        · subst h4
          have h5 : smap_get o2 "mac_prefix"
              = some (ext.set_mac_prefix_fn (smap_get o "mac_prefix")) := by
            rw [ho2 "mac_prefix", run_options_get_mp]
          rw [run_options_get_mp, h5, hmp]
        · rw [run_options_get_other ext t o2 k h4 h3 h2 h1]

theorem update_sb_snd_ipsec (cd : EdTypeGlobalConfig) (sb : SbGlobal) :
    (update_sb_config_options_to_sbrec cd sb).2.1.ipsec = sb.ipsec := by
  simp only [update_sb_config_options_to_sbrec]
  split <;> rfl

theorem update_sb_snd_options_get (cd : EdTypeGlobalConfig) (sb : SbGlobal) (k : String) :
    smap_get (update_sb_config_options_to_sbrec cd sb).2.1.options k
      = smap_get (sb_derived cd.nb_options cd.features sb.options) k := by
  simp only [update_sb_config_options_to_sbrec]
  split
  next h => exact (smap_equal_iff _ _).mp h k
  next h => rfl

theorem update_sb_snd_write (cd : EdTypeGlobalConfig) (sb : SbGlobal) :
    (update_sb_config_options_to_sbrec cd sb).2.2
      = !(smap_equal sb.options (sb_derived cd.nb_options cd.features sb.options)) := by
  simp only [update_sb_config_options_to_sbrec]
  split
  next h => simp [h]
  next h =>
    simp only [Bool.not_eq_true] at h
    simp [h]

/-- Pointwise characterization of the derived SB bag. -/
theorem sb_derived_get (n : Smap) (f : ChassisFeatures) (s : Smap) (k : String) :
    smap_get (sb_derived n f s) k =
      (match
        (if k = "lb_hairpin_use_ct_mark" then
          (if f.ct_no_masked_label then none else some "false")
         else if k = "sbctl_probe_interval" then
          (match smap_get s "sbctl_probe_interval" with
           | some sip => some sip
           | none => smap_get n k)
         else smap_get n k) with
       | some v => some v
       | none => if k = "arp_ns_explicit_output" then some "true" else none) := by
  unfold sb_derived
  by_cases hk1 : k = "lb_hairpin_use_ct_mark"
  · subst hk1
    cases hf : f.ct_no_masked_label <;>
      cases hs : smap_get s "sbctl_probe_interval" <;>
        simp [hf, hs, smap_get_add, smap_get_replace, smap_get_remove]
  · by_cases hk2 : k = "sbctl_probe_interval"
    · subst hk2
      cases hf : f.ct_no_masked_label <;>
        cases hs : smap_get s "sbctl_probe_interval" <;>
          simp [hf, hs, hk1, smap_get_add, smap_get_replace, smap_get_remove]
    · cases hf : f.ct_no_masked_label <;>
        cases hs : smap_get s "sbctl_probe_interval" <;>
          simp [hf, hs, hk1, hk2, smap_get_add, smap_get_replace, smap_get_remove]

/-- Re-deriving the SB bag from (bags map-equal to) the previous derivation's
inputs and output changes nothing pointwise. -/
theorem sb_derived_stable (n1 n2 s1 s2 : Smap) (f : ChassisFeatures)
    (hn : ∀ k, smap_get n2 k = smap_get n1 k)
    (hs : ∀ k, smap_get s2 k = smap_get (sb_derived n1 f s1) k) :
    ∀ k, smap_get (sb_derived n2 f s2) k = smap_get (sb_derived n1 f s1) k := by
  intro k
  rw [sb_derived_get, sb_derived_get]
  by_cases hk1 : k = "lb_hairpin_use_ct_mark"
  · simp [hk1]
  · by_cases hk2 : k = "sbctl_probe_interval"
    · subst hk2
      have hss : smap_get s2 "sbctl_probe_interval"
          = smap_get (sb_derived n1 f s1) "sbctl_probe_interval" := hs _
      rw [sb_derived_get] at hss
      simp only [hk1, if_false, if_true, if_neg, reduceIte] at hss ⊢
      cases hs1 : smap_get s1 "sbctl_probe_interval" with
      | some sip => simp [hs1] at hss ⊢; rw [hss]
      | none =>
        simp [hs1] at hss ⊢
        cases hn1 : smap_get n1 "sbctl_probe_interval" with
        | some v => simp [hn1] at hss ⊢; rw [hss]
        | none => simp [hn1] at hss ⊢; rw [hss, hn _, hn1]
    · simp [hk1, hk2, hn k]

/-- The full scan is idempotent: rescanning its own result changes no flag. -/
theorem build_chassis_features_idem (t : List Chassis) (cf : ChassisFeatures) :
    build_chassis_features t (build_chassis_features t cf)
      = build_chassis_features t cf := by
  rw [build_chassis_features_spec, build_chassis_features_spec t cf]
  simp [Bool.and_assoc]

theorem run_nb_out_options_get (ext : Externals) (t : List Chassis) (nb0 : NbGlobal)
    (k : String) :
    smap_get (run_nb_out ext t nb0).options k
      = smap_get (run_options ext t nb0.options) k := by
  unfold run_nb_out
  split
  · rfl
  · next h =>
    simp only [run_nb_write, Bool.not_eq_true', Bool.not_eq_false] at h
    exact (smap_equal_iff _ _).mp h k

theorem run_nb_out_ipsec (ext : Externals) (t : List Chassis) (nb0 : NbGlobal) :
    (run_nb_out ext t nb0).ipsec = nb0.ipsec := by
  unfold run_nb_out
  split <;> rfl

theorem run_sb1_ipsec (nb : NbGlobal) (sb0 : SbGlobal) :
    (run_sb1 nb sb0).ipsec = nb.ipsec := by
  unfold run_sb1
  split
  · rfl
  · next h =>
    simp only [bne_iff_ne, ne_eq, not_not] at h
    exact h.symm

theorem run_cd1_nb_options (ext : Externals) (t : List Chassis) (nb0 : NbGlobal)
    (cd : EdTypeGlobalConfig) :
    (run_cd1 ext t nb0 cd).nb_options = run_options ext t nb0.options := rfl

theorem run_cd2_nb_options (ext : Externals) (t : List Chassis) (nb : NbGlobal)
    (cd1 : EdTypeGlobalConfig) :
    (run_cd2 ext t nb cd1).nb_options = cd1.nb_options := by
  unfold run_cd2
  split <;> rfl

theorem run_cd2_features (ext : Externals) (t : List Chassis) (nb : NbGlobal)
    (cd1 : EdTypeGlobalConfig) :
    (run_cd2 ext t nb cd1).features =
      if smap_get_bool nb.options "ignore_chassis_features" false then
        northd_enable_all_features
      else build_chassis_features t cd1.features := by
  unfold run_cd2
  split
  · next h => simp [h]
  · next h =>
    simp only [Bool.not_eq_true] at h
    simp [h]

theorem run_result_cd (ext : Externals) (onb : Option NbGlobal) (osb : Option SbGlobal)
    (t : List Chassis) (cd : EdTypeGlobalConfig) :
    (en_global_config_run ext onb osb t cd).cd =
      (update_sb_config_options_to_sbrec
        (run_cd2 ext t (run_nb_out ext t (run_nb0 onb)) (run_cd1 ext t (run_nb0 onb) cd))
        (run_sb1 (run_nb_out ext t (run_nb0 onb)) (run_sb0 osb))).1 := rfl

theorem run_result_nb (ext : Externals) (onb : Option NbGlobal) (osb : Option SbGlobal)
    (t : List Chassis) (cd : EdTypeGlobalConfig) :
    (en_global_config_run ext onb osb t cd).nb = run_nb_out ext t (run_nb0 onb) := rfl

theorem run_result_sb (ext : Externals) (onb : Option NbGlobal) (osb : Option SbGlobal)
    (t : List Chassis) (cd : EdTypeGlobalConfig) :
    (en_global_config_run ext onb osb t cd).sb =
      (update_sb_config_options_to_sbrec
        (run_cd2 ext t (run_nb_out ext t (run_nb0 onb)) (run_cd1 ext t (run_nb0 onb) cd))
        (run_sb1 (run_nb_out ext t (run_nb0 onb)) (run_sb0 osb))).2.1 := rfl

theorem run_sb1_of_eq (nb : NbGlobal) (sb0 : SbGlobal) (h : nb.ipsec = sb0.ipsec) :
    run_sb1 nb sb0 = sb0 := by
  unfold run_sb1
  simp [h]

theorem smap_get_bool_congr (a b : Smap) (k : String) (d : Bool)
    (h : smap_get a k = smap_get b k) :
    smap_get_bool a k d = smap_get_bool b k d := by
  unfold smap_get_bool
  rw [h]

/-- C8: running the full recomputation a second time, on the rows and cache
the first run produced, with the same externals and chassis table, performs
no store write: no record insertion, no NB options write, no SB ipsec write,
no SB options write.  The hypotheses state that MAC formatting round-trips
through parsing and that the MAC-prefix derivation is idempotent (both hold
of the real delegated helpers, which live outside src/). -/
theorem C8_idempotent (ext : Externals) (onb : Option NbGlobal) (osb : Option SbGlobal)
    (t : List Chassis) (cd : EdTypeGlobalConfig)
    (hrt : ∀ m, ext.eth_addr_from_string (ext.eth_addr_to_string m) = some m)
    (hmp : ∀ h, ext.set_mac_prefix_fn (some (ext.set_mac_prefix_fn h))
                  = ext.set_mac_prefix_fn h) :
    (en_global_config_run ext (some (en_global_config_run ext onb osb t cd).nb)
      (some (en_global_config_run ext onb osb t cd).sb) t
      (en_global_config_run ext onb osb t cd).cd).nb_inserted = false
    ∧ (en_global_config_run ext (some (en_global_config_run ext onb osb t cd).nb)
        (some (en_global_config_run ext onb osb t cd).sb) t
        (en_global_config_run ext onb osb t cd).cd).nb_options_write = false
    ∧ (en_global_config_run ext (some (en_global_config_run ext onb osb t cd).nb)
        (some (en_global_config_run ext onb osb t cd).sb) t
        (en_global_config_run ext onb osb t cd).cd).sb_inserted = false
    ∧ (en_global_config_run ext (some (en_global_config_run ext onb osb t cd).nb)
        (some (en_global_config_run ext onb osb t cd).sb) t
        (en_global_config_run ext onb osb t cd).cd).sb_ipsec_write = false
    ∧ (en_global_config_run ext (some (en_global_config_run ext onb osb t cd).nb)
        (some (en_global_config_run ext onb osb t cd).sb) t
        (en_global_config_run ext onb osb t cd).cd).sb_options_write = false := by
  have F1 : ∀ k, smap_get (en_global_config_run ext onb osb t cd).nb.options k
      = smap_get (run_options ext t (run_nb0 onb).options) k := by
    intro k
    rw [run_result_nb]
    exact run_nb_out_options_get ext t (run_nb0 onb) k
  have F2 : ∀ k,
      smap_get (run_options ext t (en_global_config_run ext onb osb t cd).nb.options) k
        = smap_get (en_global_config_run ext onb osb t cd).nb.options k :=
    run_options_stable ext t (run_nb0 onb).options _ hrt hmp F1
  have hsbip : (en_global_config_run ext onb osb t cd).sb.ipsec
      = (en_global_config_run ext onb osb t cd).nb.ipsec := by
    rw [run_result_sb, update_sb_snd_ipsec, run_sb1_ipsec, run_result_nb]
  refine ⟨rfl, ?_, rfl, ?_, ?_⟩
  · show run_nb_write ext t (en_global_config_run ext onb osb t cd).nb = false
    unfold run_nb_write
    rw [(smap_equal_iff _ _).mpr (fun k => (F2 k).symm)]
    rfl
  · show ((run_nb_out ext t (en_global_config_run ext onb osb t cd).nb).ipsec
          != (en_global_config_run ext onb osb t cd).sb.ipsec) = false
    rw [run_nb_out_ipsec, hsbip, bne_self_eq_false]
  · show (update_sb_config_options_to_sbrec
        (run_cd2 ext t (run_nb_out ext t (en_global_config_run ext onb osb t cd).nb)
          (run_cd1 ext t (en_global_config_run ext onb osb t cd).nb
            (en_global_config_run ext onb osb t cd).cd))
        (run_sb1 (run_nb_out ext t (en_global_config_run ext onb osb t cd).nb)
          (en_global_config_run ext onb osb t cd).sb)).2.2 = false
    have hips2 : (run_nb_out ext t (en_global_config_run ext onb osb t cd).nb).ipsec
        = (en_global_config_run ext onb osb t cd).sb.ipsec := by
      rw [run_nb_out_ipsec, hsbip]
    rw [run_sb1_of_eq _ _ hips2, update_sb_snd_write]
    -- The second derivation's NB-options input is pointwise the first's.
    have hn : ∀ k,
        smap_get (run_cd2 ext t (run_nb_out ext t (en_global_config_run ext onb osb t cd).nb)
          (run_cd1 ext t (en_global_config_run ext onb osb t cd).nb
            (en_global_config_run ext onb osb t cd).cd)).nb_options k
        = smap_get (run_cd2 ext t (run_nb_out ext t (run_nb0 onb))
            (run_cd1 ext t (run_nb0 onb) cd)).nb_options k := by
      intro k
      rw [run_cd2_nb_options, run_cd2_nb_options, run_cd1_nb_options, run_cd1_nb_options]
      rw [F2 k, F1 k]
    -- The second run's feature set equals the first's.
    have hcdfeat : (en_global_config_run ext onb osb t cd).cd.features
        = (run_cd2 ext t (run_nb_out ext t (run_nb0 onb))
            (run_cd1 ext t (run_nb0 onb) cd)).features := by
      rw [run_result_cd, update_sb_config_options_to_sbrec_fst]
    have hign : smap_get_bool
          (run_nb_out ext t (en_global_config_run ext onb osb t cd).nb).options
          "ignore_chassis_features" false
        = smap_get_bool (run_nb_out ext t (run_nb0 onb)).options
            "ignore_chassis_features" false := by
      apply smap_get_bool_congr
      rw [run_nb_out_options_get, F2, ← run_result_nb ext onb osb t cd]
    have hfeat : (run_cd2 ext t (run_nb_out ext t (en_global_config_run ext onb osb t cd).nb)
          (run_cd1 ext t (en_global_config_run ext onb osb t cd).nb
            (en_global_config_run ext onb osb t cd).cd)).features
        = (run_cd2 ext t (run_nb_out ext t (run_nb0 onb))
            (run_cd1 ext t (run_nb0 onb) cd)).features := by
      rw [run_cd2_features, run_cd2_features, hign]
      cases hc : smap_get_bool (run_nb_out ext t (run_nb0 onb)).options
          "ignore_chassis_features" false with
      | true => simp
      | false =>
        simp only [Bool.false_eq_true, if_false]
        show build_chassis_features t (en_global_config_run ext onb osb t cd).cd.features = _
        rw [hcdfeat, run_cd2_features, hc]
        simp only [Bool.false_eq_true, if_false]
        show build_chassis_features t (build_chassis_features t cd.features)
            = build_chassis_features t cd.features
        exact build_chassis_features_idem t cd.features
    -- The SB options the second run reads are pointwise the first derivation.
    have hs : ∀ k, smap_get (en_global_config_run ext onb osb t cd).sb.options k
        = smap_get (sb_derived
            (run_cd2 ext t (run_nb_out ext t (run_nb0 onb))
              (run_cd1 ext t (run_nb0 onb) cd)).nb_options
            (run_cd2 ext t (run_nb_out ext t (run_nb0 onb))
              (run_cd1 ext t (run_nb0 onb) cd)).features
            (run_sb1 (run_nb_out ext t (run_nb0 onb)) (run_sb0 osb)).options) k := by
      intro k
      rw [run_result_sb]
      exact update_sb_snd_options_get _ _ k
    rw [hfeat]
    have hstable := sb_derived_stable
      (run_cd2 ext t (run_nb_out ext t (run_nb0 onb))
        (run_cd1 ext t (run_nb0 onb) cd)).nb_options
      (run_cd2 ext t (run_nb_out ext t (en_global_config_run ext onb osb t cd).nb)
        (run_cd1 ext t (en_global_config_run ext onb osb t cd).nb
          (en_global_config_run ext onb osb t cd).cd)).nb_options
      (run_sb1 (run_nb_out ext t (run_nb0 onb)) (run_sb0 osb)).options
      (en_global_config_run ext onb osb t cd).sb.options
      (run_cd2 ext t (run_nb_out ext t (run_nb0 onb))
        (run_cd1 ext t (run_nb0 onb) cd)).features
      hn hs
    have heq : smap_equal (en_global_config_run ext onb osb t cd).sb.options
        (sb_derived
          (run_cd2 ext t (run_nb_out ext t (en_global_config_run ext onb osb t cd).nb)
            (run_cd1 ext t (en_global_config_run ext onb osb t cd).nb
              (en_global_config_run ext onb osb t cd).cd)).nb_options
          (run_cd2 ext t (run_nb_out ext t (run_nb0 onb))
            (run_cd1 ext t (run_nb0 onb) cd)).features
          (en_global_config_run ext onb osb t cd).sb.options) = true := by
      apply (smap_equal_iff _ _).mpr
      intro k
      rw [hs k, hstable k]
    rw [heq]
    rfl

/-- Witness for C8 at concrete inputs (empty stores, no chassis, concrete
externals whose MAC format/parse round-trip and whose prefix derivation is
constant). -/
theorem C8_witness :
    (en_global_config_run ext0
      (some (en_global_config_run ext0 none none [] en_global_config_init).nb)
      (some (en_global_config_run ext0 none none [] en_global_config_init).sb) []
      (en_global_config_run ext0 none none [] en_global_config_init).cd).nb_inserted = false
    ∧ (en_global_config_run ext0
        (some (en_global_config_run ext0 none none [] en_global_config_init).nb)
        (some (en_global_config_run ext0 none none [] en_global_config_init).sb) []
        (en_global_config_run ext0 none none [] en_global_config_init).cd).nb_options_write
        = false
    ∧ (en_global_config_run ext0
        (some (en_global_config_run ext0 none none [] en_global_config_init).nb)
        (some (en_global_config_run ext0 none none [] en_global_config_init).sb) []
        (en_global_config_run ext0 none none [] en_global_config_init).cd).sb_inserted = false
    ∧ (en_global_config_run ext0
        (some (en_global_config_run ext0 none none [] en_global_config_init).nb)
        (some (en_global_config_run ext0 none none [] en_global_config_init).sb) []
        (en_global_config_run ext0 none none [] en_global_config_init).cd).sb_ipsec_write
        = false
    ∧ (en_global_config_run ext0
        (some (en_global_config_run ext0 none none [] en_global_config_init).nb)
        (some (en_global_config_run ext0 none none [] en_global_config_init).sb) []
        (en_global_config_run ext0 none none [] en_global_config_init).cd).sb_options_write
        = false :=
  C8_idempotent ext0 none none [] en_global_config_init
    (fun m => by simp [ext0]) (fun _ => rfl)

/-- C9: (a) when the intent option `svc_monitor_mac` parses, the run does not
generate a random MAC; (b) when it is absent or unparsable, the run generates
one and the NB row's option bag after the run carries the formatted generated
address; (c) re-running on the NB row a run produced never generates a
random MAC (given that MAC formatting round-trips through parsing). -/
theorem C9_monitor_mac_stability (ext : Externals) (onb : Option NbGlobal)
    (osb : Option SbGlobal) (t : List Chassis) (cd : EdTypeGlobalConfig)
    (osb2 : Option SbGlobal) (t2 : List Chassis) (cd2 : EdTypeGlobalConfig)
    (hrt : ∀ m, ext.eth_addr_from_string (ext.eth_addr_to_string m) = some m) :
    ((run_monitor_ea ext (run_nb0 onb).options).isSome = true →
      (en_global_config_run ext onb osb t cd).random_mac_generated = false)
    ∧ (run_monitor_ea ext (run_nb0 onb).options = none →
      (en_global_config_run ext onb osb t cd).random_mac_generated = true
      ∧ smap_get (en_global_config_run ext onb osb t cd).nb.options "svc_monitor_mac"
          = some (ext.eth_addr_to_string ext.eth_addr_random_val))
    ∧ (en_global_config_run ext (some (en_global_config_run ext onb osb t cd).nb)
        osb2 t2 cd2).random_mac_generated = false := by
  have F1 : ∀ k, smap_get (en_global_config_run ext onb osb t cd).nb.options k
      = smap_get (run_options ext t (run_nb0 onb).options) k := by
    intro k
    rw [run_result_nb]
    exact run_nb_out_options_get ext t (run_nb0 onb) k
  refine ⟨?_, ?_, ?_⟩
  · intro h
    show (run_monitor_ea ext (run_nb0 onb).options).isNone = false
    obtain ⟨ea, he⟩ := Option.isSome_iff_exists.mp h
    rw [he]
    rfl
  · intro h
    constructor
    · show (run_monitor_ea ext (run_nb0 onb).options).isNone = true
      rw [h]
      rfl
    · rw [F1 "svc_monitor_mac", run_options_get_svc, h]
  · have hm := run_monitor_ea_of_out ext t (run_nb0 onb).options
      (en_global_config_run ext onb osb t cd).nb.options hrt F1
    show (run_monitor_ea ext (en_global_config_run ext onb osb t cd).nb.options).isNone
        = false
    obtain ⟨ea, he⟩ := Option.isSome_iff_exists.mp hm
    rw [he]
    rfl

/-- Witness for C9 at concrete inputs: a valid stored monitor MAC; the
second run does not regenerate. -/
theorem C9_witness :
    (en_global_config_run ext0
      (some (en_global_config_run ext0
        (some ⟨[("svc_monitor_mac", "aaa")], false, false, false⟩) none []
        en_global_config_init).nb)
      none [] en_global_config_init).random_mac_generated = false :=
  (C9_monitor_mac_stability ext0
    (some ⟨[("svc_monitor_mac", "aaa")], false, false, false⟩) none []
    en_global_config_init none [] en_global_config_init
    (fun m => by simp [ext0])).2.2
